import Mathlib

/-!
# gdb-pounce process-catch engine: a shallow embedding

The engine watches every successful `execve`/`execveat` on the host,
coarsely filters candidates in kernel context (freezing matches with
SIGSTOP), finely filters them in userspace, and hands matching frozen
tasks to a spawned `gdb` (or `strace`), guaranteeing that no task is
left stopped.  The embedding below models the kernel probe, the event
channel, the candidate verifier, the handoff controller and the
SIGINT-driven lifecycle, and is exercised on the concrete scenarios of
the repository's test suite (`test/test.py`).
-/

namespace GdbPounce

/-- The kernel constant TASK_COMM_LEN is 16, so `comm` holds at most
15 characters of the program name plus a NUL. -/
def commChars : Nat := 15

/-- The first `n` characters of `s`.  The model works in characters;
every name the engine compares is ASCII, so this coincides with the
kernel's byte-level truncation. -/
def takeChars (s : String) (n : Nat) : String :=
  String.mk (s.data.take n)

/-- The characters after the last `/`, accumulating the current
component. -/
def lastComp : List Char → List Char → List Char
  | [], acc => acc
  | c :: cs, acc => if c = '/' then lastComp cs [] else lastComp cs (acc ++ [c])

/-- Last path component, as `os.path.basename` on the paths involved. -/
def basename (s : String) : String :=
  String.mk (lastComp s.data [])

/-- The kernel's `comm` for a task that just executed `path`: the last
component of the executed path truncated to 15 characters. -/
def commOf (path : String) : String :=
  takeChars (basename path) commChars

/-- Greedy in-order containment: every token of the second list occurs,
in order, among the tokens of the first list (exact string equality per
token). -/
def hasTokens : List String → List String → Bool
  | _, [] => true
  | [], _ :: _ => false
  | a :: rest, p :: ps =>
    if p == a then hasTokens rest ps else hasTokens rest (p :: ps)

/-- Modelled from the spec: `MatchSpec` (§3), built once at startup from
the command line `gdb-pounce [--uid=..] [--fork] [--strace]
[<debugger-args>...] <program> [<argv-token>...]`.  The engine script
itself is not in the repository snapshot; only its tests are. -/
structure MatchSpec where
  /-- The program positional token, matched against the basename of
  the target's `argv[0]` and, truncated to 15 bytes, against `comm`. -/
  prog : String
  /-- The trailing `<argv-token>...` tokens that must occur, in order,
  among the target's arguments. -/
  argvPat : List String
  /-- Numeric uid restriction, already resolved from a username if one
  was given. -/
  uidFilter : Option Nat
  /-- Extra arguments passed through to the spawned debugger. -/
  otherArgs : List String
  /-- Whether `--fork` was given: do not stop at the first match. -/
  useFork : Bool
  /-- Whether `--strace` was given: spawn `strace -p <pid>` instead of `gdb`. -/
  useStrace : Bool
deriving DecidableEq

/-- Numeric parse of a `--uid` value: a nonempty all-digit string read
in base 10. -/
def asNat? (s : String) : Option Nat :=
  if !s.data.isEmpty && s.data.all (fun c => c.isDigit) then
    some (s.data.foldl (fun n c => n * 10 + (c.toNat - 48)) 0)
  else none

/-- Modelled from the spec: resolution of the `--uid` option value,
which "accepts numeric or username (resolved via the system user
database)" (§6).  The user database is an association list from
usernames to uids. -/
def resolveUid (db : List (String × Nat)) (s : String) : Option Nat :=
  match asNat? s with
  | some n => some n
  | none => (db.find? (fun e => e.fst == s)).map (fun e => e.snd)

/-- Syscalls whose exit the tracepoint machinery can report.  The probe
is attached only to the exit of `execve` and `execveat` (§4.1); thread
or process creation (`clone`) and anything else never reaches it. -/
inductive Sys where
  | execve
  | execveat
  | clone
  | otherSys
deriving DecidableEq

/-- The task observed at a syscall exit, with the userspace-visible
`/proc` views the verifier may read. -/
structure TaskInfo where
  pid : Nat
  tgid : Nat
  uid : Nat
  /-- The path passed to exec; its last component becomes `comm`. -/
  execPath : String
  /-- The content of `/proc/<pid>/cmdline` of the new image, NUL-split into tokens. -/
  cmdline : List String
  /-- Basename of the canonical (symlink-resolved) `/proc/<pid>/exe`. -/
  exeBase : String
deriving DecidableEq

/-- One record of the host trace: a syscall exit together with the
environment facts that decide how handling it plays out. -/
structure SysExit where
  sys : Sys
  /-- Syscall return value; a nonzero exec return is a failed exec. -/
  ret : Int
  task : TaskInfo
  /-- Whether the ring buffer had room for one more record. -/
  ringSpace : Bool
  /-- Whether the target was still alive when `/proc` was read. -/
  procAlive : Bool
  /-- Whether spawning the debugger child succeeded. -/
  spawnOk : Bool
  /-- Whether the spawned debugger continued the target before
  exiting (e.g. gdb run with `-ex c`, but not with `-ex q` alone). -/
  dbgContinues : Bool
deriving DecidableEq

/-- Coarse filter flags carried by an event: either the kernel-side
filter matched (and the task was frozen), or it mismatched (and the
task was left untouched). -/
inductive FilterResult where
  | coarseOk
  | mismatchBpf
deriving DecidableEq

/-- One record per observed exec, shipped over the ring buffer. -/
structure ExecEvent where
  pid : Nat
  tgid : Nat
  uid : Nat
  comm : String
  fr : FilterResult
deriving DecidableEq

/-- Kernel-side comm predicate: `comm` starts with the first 15 bytes
of the requested program name (§4.1). -/
def coarseComm (spec : MatchSpec) (t : TaskInfo) : Bool :=
  (takeChars spec.prog commChars).data.isPrefixOf (commOf t.execPath).data

/-- Kernel-side uid predicate: filter absent, or the task's uid equals
the filter uid (§4.1). -/
def coarseUid (spec : MatchSpec) (t : TaskInfo) : Bool :=
  match spec.uidFilter with
  | none => true
  | some u => t.uid == u

/-- Number of leading bytes of each requested argv token the kernel
probe compares.  The spec fixes no length, only that the kernel "cannot
see the full argv ... reliably" (§4.3) and that its screening is coarse;
two bytes is the length consistent with the repository's tests
(`quux` vs `foo bar baz` is rejected in kernel, while `quux xyzzy` vs
`quzzy xyux` survives to userspace). -/
def bpfTokChars : Nat := 2

/-- Modelled from the spec: the kernel probe's coarse argv screen.  §9
resolves the tension between §4.1 (comm and uid only) and scenario 2
(argv mismatch labelled "filtered by BPF") by letting the kernel stage
widen coverage: each requested token, truncated to `bpfTokChars` bytes,
must occur in order among the target's equally truncated arguments. -/
def coarseArgv (spec : MatchSpec) (t : TaskInfo) : Bool :=
  hasTokens (t.cmdline.tail.map (fun a => takeChars a bpfTokChars))
    (spec.argvPat.map (fun a => takeChars a bpfTokChars))

/-- Modelled from the spec: the kernel probe's coarse match (§4.1, as
widened by §9): comm prefix, uid filter, and the coarse argv screen. -/
def coarseMatch (spec : MatchSpec) (t : TaskInfo) : Bool :=
  coarseComm spec t && coarseUid spec t && coarseArgv spec t

/-- The event the probe emits for task `t`. -/
def mkEvent (t : TaskInfo) (fr : FilterResult) : ExecEvent :=
  { pid := t.pid, tgid := t.tgid, uid := t.uid,
    comm := commOf t.execPath, fr := fr }

/-- Modelled from the spec: the kernel probe at a syscall exit (§4.1).
Fires only on `execve`/`execveat`, ignores failed execs, reserves ring
space before freezing (a full ring drops the event and must not
SIGSTOP), freezes coarse matches with SIGSTOP, and reports coarse
mismatches without freezing.  Returns the emitted event (if any) and
the list of pids it sent SIGSTOP to. -/
def kernelProbe (spec : MatchSpec) (r : SysExit) :
    Option ExecEvent × List Nat :=
  if r.sys = Sys.execve ∨ r.sys = Sys.execveat then
    if r.ret != 0 then (none, [])
    else if coarseMatch spec r.task then
      if r.ringSpace then (some (mkEvent r.task FilterResult.coarseOk), [r.task.pid])
      else (none, [])
    else
      if r.ringSpace then (some (mkEvent r.task FilterResult.mismatchBpf), [])
      else (none, [])
  else (none, [])

/-- Modelled from the spec: the userspace fine match (§4.3), as
constrained by the repository's tests.  The executable is matched by
the basename of the target's `argv[0]` — `test_symlink` requires a
target launched via a symlink name to match that name, which the
canonical basename of `/proc/<pid>/exe` cannot provide — and the
requested argv tokens must occur, in order, among the target's
arguments (`test_matching_argv` accepts `bar` against `foo bar baz`,
so the tokens need not be the exact tail). -/
def fineMatch (spec : MatchSpec) (cmdline : List String) : Bool :=
  basename (cmdline.headD "") == spec.prog
    && hasTokens cmdline.tail spec.argvPat

/-- The banner printed once the probe is attached (§4.5). -/
def runningLine : String := "Running, press Ctrl+C to stop..."

/-- The mandatory gdb prelude telling the debugger not to stop on the
SIGSTOP used to freeze the target (§4.4). -/
def gdbPrelude : String := "-ex \x27handle SIGSTOP nostop noprint nopass\x27"

/-- The debugger command line: `gdb -p <pid> <prelude> <extra args>`,
or `strace -p <pid>` in strace mode (which omits the prelude, §6). -/
def dbgCmd (spec : MatchSpec) (pid : Nat) : List String :=
  if spec.useStrace then ["strace", "-p", toString pid]
  else ["gdb", "-p", toString pid, gdbPrelude] ++ spec.otherArgs

/-- The `Starting ...` log line for a spawned debugger. -/
def startLine (spec : MatchSpec) (pid : Nat) : String :=
  "Starting " ++ String.intercalate " " (dbgCmd spec pid) ++ "..."

/-- The log line announcing the debugger's exit. -/
def exitedLine (spec : MatchSpec) : String :=
  if spec.useStrace then "strace exited." else "GDB exited."

/-- The log line for releasing a target its debugger left stopped. -/
def leftStoppedLine : String :=
  "GDB left the process stopped - sending SIGCONT..."

/-- The kernel-stage skip line. -/
def bpfSkipLine (pid : Nat) : String :=
  "Skipping non-matching pid " ++ toString pid ++ " (filtered by BPF)..."

/-- The userspace-stage skip line. -/
def pySkipLine (pid : Nat) : String :=
  "Skipping non-matching pid " ++ toString pid ++ " (filtered by Python)..."

/-- The surfaced error when spawning the debugger fails (§4.4; the spec
fixes no exact text for this line). -/
def spawnFailLine (pid : Nat) : String :=
  "Failed to start the debugger for pid " ++ toString pid ++ "."

/-- Everything observable that handling one event produces. -/
structure EventResult where
  /-- stderr lines, in order. -/
  logs : List String
  /-- Pids the kernel probe sent SIGSTOP to. -/
  froze : List Nat
  /-- Pids userspace sent SIGCONT to. -/
  conts : List Nat
  /-- Pids a debugger was attached to. -/
  attached : List Nat
  /-- Pids the attached debugger continued before exiting. -/
  dbgCont : List Nat
  /-- Whether a match has happened up to and including this event. -/
  matched : Bool
deriving DecidableEq

/-- Modelled from the spec: the candidate verifier and handoff
controller handling one event (§4.3, §4.4, §7).  `m` records whether a
match already happened: without `--fork`, later frozen candidates are
released with SIGCONT and nothing is logged. -/
def verifierStep (spec : MatchSpec) (m : Bool) (ev : ExecEvent)
    (r : SysExit) : EventResult :=
  match ev.fr with
  | FilterResult.mismatchBpf =>
    { logs := [bpfSkipLine ev.pid], froze := [], conts := [],
      attached := [], dbgCont := [], matched := m }
  | FilterResult.coarseOk =>
    if !r.procAlive then
      { logs := [], froze := [], conts := [ev.pid],
        attached := [], dbgCont := [], matched := m }
    else if m && !spec.useFork then
      { logs := [], froze := [], conts := [ev.pid],
        attached := [], dbgCont := [], matched := m }
    else if fineMatch spec r.task.cmdline then
      if r.spawnOk then
        { logs := [startLine spec ev.pid, exitedLine spec]
            ++ (if r.dbgContinues then [] else [leftStoppedLine]),
          froze := [],
          conts := if r.dbgContinues then [] else [ev.pid],
          attached := [ev.pid],
          dbgCont := if r.dbgContinues then [ev.pid] else [],
          matched := true }
      else
        { logs := [spawnFailLine ev.pid], froze := [], conts := [ev.pid],
          attached := [], dbgCont := [], matched := m }
    else
      { logs := [pySkipLine ev.pid], froze := [], conts := [ev.pid],
        attached := [], dbgCont := [], matched := m }

/-- Handling of one syscall-exit record end to end: kernel probe, event
channel, verifier, controller. -/
def handleExec (spec : MatchSpec) (m : Bool) (r : SysExit) : EventResult :=
  match kernelProbe spec r with
  | (none, fr) =>
    { logs := [], froze := fr, conts := [], attached := [],
      dbgCont := [], matched := m }
  | (some ev, fr) =>
    let v := verifierStep spec m ev r
    { v with froze := fr }

/-- The accumulated observable outcome of an engine run. -/
structure RunResult where
  log : List String
  froze : List Nat
  conts : List Nat
  attached : List Nat
  dbgCont : List Nat
  matched : Bool
deriving DecidableEq

/-- Folding one record into the accumulated run outcome. -/
def stepEngine (spec : MatchSpec) (acc : RunResult) (r : SysExit) :
    RunResult :=
  let er := handleExec spec acc.matched r
  { log := acc.log ++ er.logs, froze := acc.froze ++ er.froze,
    conts := acc.conts ++ er.conts,
    attached := acc.attached ++ er.attached,
    dbgCont := acc.dbgCont ++ er.dbgCont, matched := er.matched }

/-- Modelled from the spec: a whole engine run (§4.5): print the
banner, then process every record of the host trace in order. -/
def runEngine (spec : MatchSpec) (tr : List SysExit) : RunResult :=
  tr.foldl (stepEngine spec)
    { log := [runningLine], froze := [], conts := [], attached := [],
      dbgCont := [], matched := false }

/-- Pids frozen during the run and neither continued by a debugger nor
sent SIGCONT: the tasks the run would leave stopped. -/
def RunResult.stillStopped (res : RunResult) : List Nat :=
  res.froze.filter (fun p => !(res.conts.contains p || res.dbgCont.contains p))

/-- State of the SIGINT-driven lifecycle (§4.5): tasks frozen and still
awaiting verification, SIGCONTs sent during shutdown, whether the
process has exited and with which code. -/
structure LifeState where
  pending : List Nat
  released : List Nat
  exited : Bool
  code : Nat
deriving DecidableEq

/-- Modelled from the spec: handling one (non-swallowed) SIGINT (§4.5):
stop accepting events, release every frozen task awaiting verification
with SIGCONT, and exit 0; a SIGINT after exit changes nothing. -/
def onSigint (st : LifeState) : LifeState :=
  if st.exited then st
  else { pending := [], released := st.released ++ st.pending,
         exited := true, code := 0 }

/-- Modelled from the spec: a burst of SIGINT deliveries, each either
swallowed in a critical section (`true`) or acted upon (`false`); the
test harness resends SIGINT until the process exits. -/
def deliverSigints : List Bool → LifeState → LifeState
  | [], st => st
  | b :: bs, st => deliverSigints bs (if b then st else onSigint st)

/-! ## Concrete fixtures from `test/test.py` -/

/-- The gdb arguments the test suite passes through. -/
def testGdbArgs : List String := ["-nx", "-batch", "-ex", "c", "-ex", "q"]

/-- A task that just executed the compiled `hello` binary. -/
def helloTask (pid : Nat) (args : List String) : TaskInfo :=
  { pid := pid, tgid := pid, uid := 1000, execPath := "/tmp/w/hello",
    cmdline := "/tmp/w/hello" :: args, exeBase := "hello" }

/-- A healthy `execve` exit for task `t`: exec succeeded, the ring has
room, the target stays alive, the debugger spawns and continues the
target before exiting. -/
def okExec (t : TaskInfo) : SysExit :=
  { sys := Sys.execve, ret := 0, task := t, ringSpace := true,
    procAlive := true, spawnOk := true, dbgContinues := true }

/-- The spec built by `gdb-pounce -nx -batch -ex q hello` (test_quit). -/
def quitSpec : MatchSpec :=
  { prog := "hello", argvPat := [], uidFilter := none,
    otherArgs := ["-nx", "-batch", "-ex", "q"], useFork := false,
    useStrace := false }

/-- The exec of `hello` in test_quit: gdb quits without continuing the
target, so it is still stopped when gdb exits. -/
def quitExec : SysExit :=
  { okExec (helloTask 7 []) with dbgContinues := false }

/-- The spec built by `gdb-pounce hello quux` (test_non_matching_argv). -/
def nmSpec : MatchSpec :=
  { prog := "hello", argvPat := ["quux"], uidFilter := none,
    otherArgs := [], useFork := false, useStrace := false }

/-- The exec of `hello foo bar baz` in test_non_matching_argv. -/
def nmExec : SysExit := okExec (helloTask 43 ["foo", "bar", "baz"])

/-- The spec built by `gdb-pounce hello quux xyzzy` (test_argv_collision). -/
def collSpec : MatchSpec :=
  { prog := "hello", argvPat := ["quux", "xyzzy"], uidFilter := none,
    otherArgs := [], useFork := false, useStrace := false }

/-- The exec of `hello quzzy xyux` in test_argv_collision. -/
def collExec : SysExit := okExec (helloTask 44 ["quzzy", "xyux"])

/-- Fifteen `A`s: the program argument of test_comm_collision. -/
def fifteenAs : String := String.mk (List.replicate 15 'A')

/-- Sixteen `A`s: the name of the copied binary in test_comm_collision. -/
def sixteenAs : String := String.mk (List.replicate 16 'A')

/-- The spec built by `gdb-pounce AAAAAAAAAAAAAAA` (15 `A`s, test_comm_collision). -/
def commCollSpec : MatchSpec :=
  { prog := fifteenAs, argvPat := [], uidFilter := none,
    otherArgs := [], useFork := false, useStrace := false }

/-- The exec of the 16-`A` copy of `hello` in test_comm_collision. -/
def commCollExec : SysExit :=
  okExec { pid := 45, tgid := 45, uid := 1000,
           execPath := "/tmp/w/" ++ sixteenAs,
           cmdline := ["/tmp/w/" ++ sixteenAs], exeBase := sixteenAs }

/-- The spec built by `gdb-pounce -nx -batch -ex c -ex q hello bar` (test_matching_argv). -/
def matchingSpec : MatchSpec :=
  { prog := "hello", argvPat := ["bar"], uidFilter := none,
    otherArgs := testGdbArgs, useFork := false, useStrace := false }

/-- The exec of `hello foo bar baz` in test_matching_argv. -/
def matchingExec : SysExit := okExec (helloTask 42 ["foo", "bar", "baz"])

/-- The spec built by `gdb-pounce -nx -batch -ex c -ex q hello2` (test_symlink). -/
def symSpec : MatchSpec :=
  { prog := "hello2", argvPat := [], uidFilter := none,
    otherArgs := testGdbArgs, useFork := false, useStrace := false }

/-- The exec via the `hello2` symlink in test_symlink: the kernel
resolved the symlink at exec time, so the canonical `/proc/<pid>/exe`
basename is `hello`, while `argv[0]` and `comm` carry `hello2`. -/
def symExec : SysExit :=
  okExec { pid := 46, tgid := 46, uid := 1000,
           execPath := "/tmp/w/hello2", cmdline := ["/tmp/w/hello2"],
           exeBase := "hello" }

/-- The system user database visible to the tests: the invoking user. -/
def userDb : List (String × Nat) := [("me", 1000)]

/-- The spec built by `gdb-pounce --uid=me -nx -batch -ex c -ex q hello`
(test_matching_uid): the uid filter is the resolved username. -/
def uidOkSpec : MatchSpec :=
  { prog := "hello", argvPat := [], uidFilter := resolveUid userDb "me",
    otherArgs := testGdbArgs, useFork := false, useStrace := false }

/-- The spec built by `gdb-pounce --uid 1001 hello` (test_non_matching_uid): the numeric
uid one above the invoking user's. -/
def uidMissSpec : MatchSpec :=
  { prog := "hello", argvPat := [], uidFilter := resolveUid userDb "1001",
    otherArgs := [], useFork := false, useStrace := false }

/-- The exec of `hello` by uid 1000 in the uid tests. -/
def uidExec : SysExit := okExec (helloTask 47 [])

/-- The spec built by `gdb-pounce --fork -nx -batch -ex c -ex q hello` (test_fork). -/
def forkSpec : MatchSpec :=
  { prog := "hello", argvPat := [], uidFilter := none,
    otherArgs := testGdbArgs, useFork := true, useStrace := false }

/-- Two thousand `A`s: the argument of test_fully_matching_argv. -/
def bigTok : String := String.mk (List.replicate 2000 'A')

/-- The spec built by `gdb-pounce -nx -batch -ex c -ex q hello <tok>`: the shape of
test_fully_matching_argv for an arbitrary requested token. -/
def tokSpec (tok : String) : MatchSpec :=
  { prog := "hello", argvPat := [tok], uidFilter := none,
    otherArgs := testGdbArgs, useFork := false, useStrace := false }

/-- The spec built by `gdb-pounce -nx -batch -ex c -ex q hello AAAA…` (2000 `A`s,
test_fully_matching_argv). -/
def bigSpec : MatchSpec := tokSpec bigTok

/-- The spec built by `gdb-pounce --fork hello` (test_thread). -/
def threadSpec : MatchSpec :=
  { prog := "hello", argvPat := [], uidFilter := none,
    otherArgs := [], useFork := true, useStrace := false }

/-- The `clone` syscall exit for the thread the target spawns in
test_thread: same thread group as the exec'd task, a fresh task id,
and no exec involved. -/
def threadClone : SysExit :=
  { okExec { helloTask 301 [] with pid := 302 } with sys := Sys.clone }

/-! ## General release invariant (P1) -/

/-- The kernel probe either freezes nobody, or freezes exactly the
observed task and emits the corresponding coarse-match event. -/
theorem kernelProbe_cases (spec : MatchSpec) (r : SysExit) :
    (kernelProbe spec r).2 = []
    ∨ kernelProbe spec r
        = (some (mkEvent r.task FilterResult.coarseOk), [r.task.pid]) := by
  unfold kernelProbe
  split_ifs <;> simp

/-- The pids a single event handling freezes are exactly those the
kernel probe sent SIGSTOP to. -/
theorem handleExec_froze (spec : MatchSpec) (m : Bool) (r : SysExit) :
    (handleExec spec m r).froze = (kernelProbe spec r).2 := by
  unfold handleExec
  rcases h : kernelProbe spec r with ⟨oev, frz⟩
  cases oev <;> rfl

/-- When the probe emits an event, event handling is the verifier's
decision on it, with the probe's freezes recorded. -/
theorem handleExec_some (spec : MatchSpec) (m : Bool) (r : SysExit)
    (ev : ExecEvent) (frz : List Nat)
    (h : kernelProbe spec r = (some ev, frz)) :
    handleExec spec m r = { verifierStep spec m ev r with froze := frz } := by
  unfold handleExec
  rw [h]

/-- On every verifier path for a coarse-matched (hence frozen) event,
the frozen pid is attached-or-SIGCONTed, and continued by its debugger
or SIGCONTed. -/
theorem verifierStep_releases (spec : MatchSpec) (m : Bool) (ev : ExecEvent)
    (r : SysExit) (h : ev.fr = FilterResult.coarseOk) :
    (ev.pid ∈ (verifierStep spec m ev r).attached
      ∨ ev.pid ∈ (verifierStep spec m ev r).conts)
    ∧ (ev.pid ∈ (verifierStep spec m ev r).dbgCont
      ∨ ev.pid ∈ (verifierStep spec m ev r).conts) := by
  obtain ⟨pid, tgid, uid, comm, fr⟩ := ev
  change fr = FilterResult.coarseOk at h
  subst h
  unfold verifierStep
  split_ifs <;> simp

/-- Every pid a single event handling freezes is attached to or sent
SIGCONT, and is continued by its debugger or sent SIGCONT: no handling
path leaves a frozen task behind. -/
theorem handleExec_releases (spec : MatchSpec) (m : Bool) (r : SysExit)
    (p : Nat) (hp : p ∈ (handleExec spec m r).froze) :
    (p ∈ (handleExec spec m r).attached ∨ p ∈ (handleExec spec m r).conts)
    ∧ (p ∈ (handleExec spec m r).dbgCont ∨ p ∈ (handleExec spec m r).conts) := by
  rcases kernelProbe_cases spec r with h | h
  · rw [handleExec_froze, h] at hp
    simp at hp
  · rw [handleExec_some spec m r _ _ h] at hp ⊢
    have hp' : p = r.task.pid := by simpa using hp
    subst hp'
    exact verifierStep_releases spec m (mkEvent r.task FilterResult.coarseOk) r rfl

/-- The release invariant lifted over a whole engine run: every pid the
probe froze during the run is attached-or-SIGCONTed and
debugger-continued-or-SIGCONTed. -/
theorem runEngine_releases (spec : MatchSpec) (tr : List SysExit) (p : Nat)
    (hp : p ∈ (runEngine spec tr).froze) :
    (p ∈ (runEngine spec tr).attached ∨ p ∈ (runEngine spec tr).conts)
    ∧ (p ∈ (runEngine spec tr).dbgCont ∨ p ∈ (runEngine spec tr).conts) := by
  have main : ∀ (l : List SysExit) (acc : RunResult),
      (∀ q ∈ acc.froze,
        (q ∈ acc.attached ∨ q ∈ acc.conts) ∧ (q ∈ acc.dbgCont ∨ q ∈ acc.conts)) →
      ∀ q ∈ (l.foldl (stepEngine spec) acc).froze,
        (q ∈ (l.foldl (stepEngine spec) acc).attached
          ∨ q ∈ (l.foldl (stepEngine spec) acc).conts)
        ∧ (q ∈ (l.foldl (stepEngine spec) acc).dbgCont
          ∨ q ∈ (l.foldl (stepEngine spec) acc).conts) := by
    intro l
    induction l with
    | nil => exact fun acc hacc q hq => hacc q hq
    | cons r rest ih =>
      intro acc hacc q hq
      refine ih (stepEngine spec acc r) ?_ q hq
      intro q' hq'
      simp only [stepEngine, List.mem_append] at hq' ⊢
      rcases hq' with h | h
      · rcases hacc q' h with ⟨h1, h2⟩
        exact ⟨h1.imp Or.inl Or.inl, h2.imp Or.inl Or.inl⟩
      · rcases handleExec_releases spec acc.matched r q' h with ⟨h1, h2⟩
        exact ⟨h1.imp Or.inr Or.inr, h2.imp Or.inr Or.inr⟩
  exact main tr _ (fun q hq => absurd hq (by simp)) p hp

/-- No engine run leaves any task stopped. -/
theorem runEngine_stillStopped_nil (spec : MatchSpec) (tr : List SysExit) :
    (runEngine spec tr).stillStopped = [] := by
  unfold RunResult.stillStopped
  rw [List.filter_eq_nil_iff]
  intro p hp
  rcases runEngine_releases spec tr p hp with ⟨-, h2⟩
  rcases h2 with h | h <;> simp [List.contains, h]

/-- A token always matches itself: token comparison is exact string
equality, so it holds at every length, with no truncation. -/
theorem hasTokens_self (a : String) : hasTokens [a] [a] = true := by
  simp [hasTokens]

/-- A requested argv token of any length matches a target launched
with the identical argument: the exec is frozen, attached and handed
to gdb, which continues it. -/
theorem runEngine_token_attach (tok : String) (pid : Nat) :
    runEngine (tokSpec tok) [okExec (helloTask pid [tok])]
      = { log := [runningLine, startLine (tokSpec tok) pid, "GDB exited."],
          froze := [pid], conts := [], attached := [pid],
          dbgCont := [pid], matched := true } := by
  have hcm : coarseMatch (tokSpec tok) (helloTask pid [tok]) = true := by
    show hasTokens [takeChars tok bpfTokChars] [takeChars tok bpfTokChars] = true
    exact hasTokens_self _
  have hfm : fineMatch (tokSpec tok) (helloTask pid [tok]).cmdline = true := by
    show hasTokens [tok] [tok] = true
    exact hasTokens_self _
  have hhe : handleExec (tokSpec tok) false (okExec (helloTask pid [tok]))
      = { logs := [startLine (tokSpec tok) pid, "GDB exited."],
          froze := [pid], conts := [], attached := [pid],
          dbgCont := [pid], matched := true } := by
    unfold handleExec kernelProbe verifierStep
    simp only [okExec, helloTask, tokSpec] at hcm hfm
    simp [okExec, helloTask, tokSpec, mkEvent, exitedLine, hcm, hfm]
  unfold runEngine
  show stepEngine (tokSpec tok)
      { log := [runningLine], froze := [], conts := [], attached := [],
        dbgCont := [], matched := false } (okExec (helloTask pid [tok])) = _
  unfold stepEngine
  rw [hhe]
  simp

/-- A SIGINT after exit changes nothing. -/
theorem onSigint_exited (st : LifeState) (h : st.exited = true) :
    onSigint st = st := by
  unfold onSigint
  rw [if_pos h]

/-- Once exited, further SIGINT deliveries change nothing. -/
theorem deliverSigints_exited (bs : List Bool) (st : LifeState)
    (h : st.exited = true) : deliverSigints bs st = st := by
  induction bs generalizing st with
  | nil => rfl
  | cons b tl ih =>
    simp only [deliverSigints]
    cases b
    · rw [onSigint_exited st h]
      exact ih st h
    · exact ih st h

/-! ## The claims -/

/-- C1: for every task the probe freezes during any engine run, either
a debugger attaches or a SIGCONT is sent before the engine exits; in
particular, in the quit scenario (`gdb-pounce -nx -batch -ex q hello`,
where gdb exits without continuing the target), the run logs
`GDB exited.` followed by
`GDB left the process stopped - sending SIGCONT...`, sends SIGCONT to
the target, and leaves no task stopped, so the target runs to
completion. -/
theorem c1_no_orphan_freeze (spec : MatchSpec) (tr : List SysExit) (p : Nat)
    (hp : p ∈ (runEngine spec tr).froze) :
    (p ∈ (runEngine spec tr).attached ∨ p ∈ (runEngine spec tr).conts)
    ∧ (runEngine quitSpec [quitExec]).log
        = ["Running, press Ctrl+C to stop...",
           "Starting gdb -p 7 -ex \x27handle SIGSTOP nostop noprint nopass\x27 -nx -batch -ex q...",
           "GDB exited.",
           "GDB left the process stopped - sending SIGCONT..."]
    ∧ (runEngine quitSpec [quitExec]).conts = [7]
    ∧ (runEngine quitSpec [quitExec]).stillStopped = [] :=
  ⟨(runEngine_releases spec tr p hp).1, by decide, by decide,
    runEngine_stillStopped_nil quitSpec [quitExec]⟩

/-- Witness for C1: in the quit scenario the probe concretely froze
pid 7, and the engine released it. -/
theorem c1_no_orphan_freeze_witness :
    7 ∈ (runEngine quitSpec [quitExec]).froze
    ∧ ((7 ∈ (runEngine quitSpec [quitExec]).attached
        ∨ 7 ∈ (runEngine quitSpec [quitExec]).conts)
      ∧ (runEngine quitSpec [quitExec]).log
          = ["Running, press Ctrl+C to stop...",
             "Starting gdb -p 7 -ex \x27handle SIGSTOP nostop noprint nopass\x27 -nx -batch -ex q...",
             "GDB exited.",
             "GDB left the process stopped - sending SIGCONT..."]
      ∧ (runEngine quitSpec [quitExec]).conts = [7]
      ∧ (runEngine quitSpec [quitExec]).stillStopped = []) :=
  ⟨by decide, c1_no_orphan_freeze quitSpec [quitExec] 7 (by decide)⟩

/-- C2 counterexample: in the very scenario the claim cites as a
"filtered by Python" fine-match failure (`gdb-pounce hello quux`
against `hello foo bar baz`), the engine logs the BPF label, not the
Python one, and sends no SIGCONT — the kernel-side screen already
rejected the event, so the task was never frozen. -/
theorem c2_python_label_counterexample :
    (runEngine nmSpec [nmExec]).log
      = ["Running, press Ctrl+C to stop...",
         "Skipping non-matching pid 43 (filtered by BPF)..."]
    ∧ "Skipping non-matching pid 43 (filtered by Python)..."
        ∉ (runEngine nmSpec [nmExec]).log
    ∧ (runEngine nmSpec [nmExec]).conts = [] := by decide

/-- C2 (amended): every event that reaches the verifier as a
kernel-side coarse match and whose fine match fails is logged
`Skipping non-matching pid <pid> (filtered by Python)...` and released
with SIGCONT — provided the target is still alive and the engine is
still accepting candidates; in particular for a basename mismatch
(a 16-`A` program against a 15-`A` pattern) and for an argv mismatch
the kernel's coarse screen cannot see (pattern `quux xyzzy` against
argv `quzzy xyux`).  An argv mismatch the kernel screen itself rejects
(pattern `quux` against argv `foo bar baz`) never reaches the fine
stage and is labelled BPF instead. -/
theorem c2_python_label_amended (spec : MatchSpec) (m : Bool)
    (ev : ExecEvent) (r : SysExit)
    (hfr : ev.fr = FilterResult.coarseOk)
    (halive : r.procAlive = true)
    (hgate : m = false ∨ spec.useFork = true)
    (hfine : fineMatch spec r.task.cmdline = false) :
    ((verifierStep spec m ev r).logs = [pySkipLine ev.pid]
      ∧ (verifierStep spec m ev r).conts = [ev.pid])
    ∧ (runEngine commCollSpec [commCollExec]).log
        = ["Running, press Ctrl+C to stop...",
           "Skipping non-matching pid 45 (filtered by Python)..."]
    ∧ (runEngine commCollSpec [commCollExec]).conts = [45]
    ∧ (runEngine collSpec [collExec]).log
        = ["Running, press Ctrl+C to stop...",
           "Skipping non-matching pid 44 (filtered by Python)..."]
    ∧ (runEngine collSpec [collExec]).conts = [44] := by
  refine ⟨?_, by decide, by decide, by decide, by decide⟩
  obtain ⟨pid, tgid, uid, comm, fr⟩ := ev
  change fr = FilterResult.coarseOk at hfr
  subst hfr
  unfold verifierStep
  rcases hgate with hg | hg <;> simp [halive, hfine, hg]

/-- Witness for C2 (amended): the argv-collision event, concretely
skipped at the userspace stage and released. -/
theorem c2_python_label_amended_witness :
    fineMatch collSpec collExec.task.cmdline = false
    ∧ (verifierStep collSpec false (mkEvent collExec.task FilterResult.coarseOk)
        collExec).logs = [pySkipLine 44]
    ∧ (verifierStep collSpec false (mkEvent collExec.task FilterResult.coarseOk)
        collExec).conts = [44] :=
  ⟨by decide,
   (c2_python_label_amended collSpec false
      (mkEvent collExec.task FilterResult.coarseOk) collExec rfl rfl
      (Or.inl rfl) (by decide)).1.1,
   (c2_python_label_amended collSpec false
      (mkEvent collExec.task FilterResult.coarseOk) collExec rfl rfl
      (Or.inl rfl) (by decide)).1.2⟩

/-- C3: `gdb-pounce hello quux` against a target executing
`hello foo bar baz` — comm matches the requested prefix and there is
no uid filter — produces `Skipping non-matching pid <pid> (filtered by
BPF)...`: the kernel stage rejects on its coarse argv screen (the
widened coverage of spec §9), so the task is never frozen. -/
theorem c3_bpf_label_for_argv :
    (runEngine nmSpec [nmExec]).log
      = ["Running, press Ctrl+C to stop...",
         "Skipping non-matching pid 43 (filtered by BPF)..."]
    ∧ coarseComm nmSpec nmExec.task = true
    ∧ nmSpec.uidFilter = none
    ∧ coarseUid nmSpec nmExec.task = true
    ∧ coarseArgv nmSpec nmExec.task = false
    ∧ (runEngine nmSpec [nmExec]).froze = [] := by decide

/-- C4: `gdb-pounce -nx -batch -ex c -ex q hello bar` against a target
executing `hello foo bar baz` logs, in order: the running banner, the
`Starting gdb -p 42 ...` line with the mandatory SIGSTOP prelude
preceding the user's gdb arguments and the target's actual pid, and
`GDB exited.`; the target is attached and left running. -/
theorem c4_matching_argv_run :
    (runEngine matchingSpec [matchingExec]).log
      = ["Running, press Ctrl+C to stop...",
         "Starting gdb -p 42 -ex \x27handle SIGSTOP nostop noprint nopass\x27 -nx -batch -ex c -ex q...",
         "GDB exited."]
    ∧ (runEngine matchingSpec [matchingExec]).attached = [42]
    ∧ (runEngine matchingSpec [matchingExec]).stillStopped = [] := by decide

/-- C5: with symlink `hello2 -> hello`, `gdb-pounce -nx -batch -ex c
-ex q hello2` matches a target launched via the symlink and attaches
(Starting line and `GDB exited.`), and the target completes — even
though the canonical `/proc/<pid>/exe` basename is `hello`, which
differs from the requested name `hello2`. -/
theorem c5_symlink_attach :
    (runEngine symSpec [symExec]).log
      = ["Running, press Ctrl+C to stop...",
         "Starting gdb -p 46 -ex \x27handle SIGSTOP nostop noprint nopass\x27 -nx -batch -ex c -ex q...",
         "GDB exited."]
    ∧ symExec.task.exeBase = "hello"
    ∧ symSpec.prog = "hello2"
    ∧ symExec.task.exeBase ≠ symSpec.prog
    ∧ (runEngine symSpec [symExec]).attached = [46]
    ∧ (runEngine symSpec [symExec]).stillStopped = [] := by decide

/-- C6: the `--uid` filter accepts a username, resolved through the
user database, and a numeric uid: with the invoking user's username
the matching exec (uid 1000) is attached (Starting line, `GDB
exited.`); with the numeric uid 1001 the same exec is skipped with the
BPF label. -/
theorem c6_uid_filter :
    resolveUid userDb "me" = some 1000
    ∧ uidExec.task.uid = 1000
    ∧ (runEngine uidOkSpec [uidExec]).log
        = ["Running, press Ctrl+C to stop...",
           "Starting gdb -p 47 -ex \x27handle SIGSTOP nostop noprint nopass\x27 -nx -batch -ex c -ex q...",
           "GDB exited."]
    ∧ resolveUid userDb "1001" = some 1001
    ∧ (runEngine uidMissSpec [uidExec]).log
        = ["Running, press Ctrl+C to stop...",
           "Skipping non-matching pid 47 (filtered by BPF)..."] := by decide

/-- C7: with `--fork` the engine does not stop after the first match:
for any parent and child pids, both matching execs are attached, each
`Starting ...` line carrying its own task's pid; in particular the
lines for two distinct pids differ. -/
theorem c7_fork_catches_children (pP pC : Nat) :
    (runEngine forkSpec
        [okExec (helloTask pP []), okExec (helloTask pC [])]).log
      = [runningLine, startLine forkSpec pP, exitedLine forkSpec,
         startLine forkSpec pC, exitedLine forkSpec]
    ∧ (runEngine forkSpec
        [okExec (helloTask pP []), okExec (helloTask pC [])]).attached
        = [pP, pC]
    ∧ startLine forkSpec 102 ≠ startLine forkSpec 101 :=
  ⟨rfl, rfl, by decide⟩

/-- Witness for C7: the fork scenario at the concrete parent pid 101
and child pid 102. -/
theorem c7_fork_catches_children_witness :
    (runEngine forkSpec
        [okExec (helloTask 101 []), okExec (helloTask 102 [])]).attached
        = [101, 102]
    ∧ startLine forkSpec 102 ≠ startLine forkSpec 101 :=
  ⟨(c7_fork_catches_children 101 102).2.1,
   (c7_fork_catches_children 101 102).2.2⟩

/-- C8: shutdown via SIGINT is idempotent and clean: for any pending
set of frozen tasks and any burst of SIGINT deliveries of which at
least one is not swallowed, the lifecycle exits with code 0, no task
is left pending, and every pending task was released with SIGCONT. -/
theorem c8_sigint_idempotent (bs : List Bool) (pend : List Nat)
    (hb : false ∈ bs) :
    (deliverSigints bs ⟨pend, [], false, 0⟩).exited = true
    ∧ (deliverSigints bs ⟨pend, [], false, 0⟩).code = 0
    ∧ (deliverSigints bs ⟨pend, [], false, 0⟩).pending = []
    ∧ ∀ p ∈ pend, p ∈ (deliverSigints bs ⟨pend, [], false, 0⟩).released := by
  induction bs with
  | nil => simp at hb
  | cons b tl ih =>
    simp only [deliverSigints]
    cases b
    · have h1 : onSigint ⟨pend, [], false, 0⟩
          = (⟨[], pend, true, 0⟩ : LifeState) := rfl
      rw [h1, deliverSigints_exited tl _ rfl]
      exact ⟨rfl, rfl, rfl, fun p hp => hp⟩
    · have hb' : false ∈ tl := by
        rcases List.mem_cons.mp hb with h | h
        · exact absurd h (by simp)
        · exact h
      exact ih hb'

/-- Witness for C8: three SIGINTs, the first swallowed, against one
pending frozen task. -/
theorem c8_sigint_idempotent_witness :
    false ∈ [true, false, false]
    ∧ ((deliverSigints [true, false, false] ⟨[9], [], false, 0⟩).exited = true
      ∧ (deliverSigints [true, false, false] ⟨[9], [], false, 0⟩).code = 0
      ∧ (deliverSigints [true, false, false] ⟨[9], [], false, 0⟩).pending = []
      ∧ ∀ p ∈ [9],
          p ∈ (deliverSigints [true, false, false] ⟨[9], [], false, 0⟩).released) :=
  ⟨by decide, c8_sigint_idempotent [true, false, false] [9] (by decide)⟩

/-- C9: argv fine matching compares full tokens with no length
truncation: a 2000-byte token given as the required argv token matches
a target launched with the identical 2000-byte argument and triggers
attach, while a target whose argument agrees with the pattern only on
the first 16 bytes is skipped at the userspace stage — unlike `comm`,
which the kernel does cut at 15 bytes. -/
theorem c9_argv_no_truncation :
    bigTok.length = 2000
    ∧ runEngine bigSpec [okExec (helloTask 48 [bigTok])]
        = { log := [runningLine, startLine bigSpec 48, "GDB exited."],
            froze := [48], conts := [], attached := [48],
            dbgCont := [48], matched := true }
    ∧ (runEngine bigSpec [okExec (helloTask 49 [sixteenAs])]).log
        = [runningLine, pySkipLine 49]
    ∧ (runEngine bigSpec [okExec (helloTask 49 [sixteenAs])]).conts = [49]
    ∧ commOf ("/tmp/w/" ++ sixteenAs) = fifteenAs := by
  refine ⟨?_, runEngine_token_attach bigTok 48, by decide, by decide, by decide⟩
  show (String.mk (List.replicate 2000 'A')).length = 2000
  rw [show (String.mk (List.replicate 2000 'A')).length
      = (List.replicate 2000 'A').length from rfl, List.length_replicate]

/-- C10: creating a thread never triggers the catch machinery: the
probe is attached only to exec syscalls, so with `--fork` and a
matching spec the target's exec is caught once, the thread's `clone`
produces no event and no freeze, no task is left stopped, and the
subsequent SIGINT shutdown exits 0. -/
theorem c10_thread_no_catch :
    kernelProbe threadSpec threadClone = (none, [])
    ∧ (runEngine threadSpec [okExec (helloTask 301 []), threadClone]).attached
        = [301]
    ∧ (runEngine threadSpec [okExec (helloTask 301 []), threadClone]).froze
        = [301]
    ∧ (runEngine threadSpec [okExec (helloTask 301 []), threadClone]).stillStopped
        = []
    ∧ (deliverSigints [false]
        ⟨(runEngine threadSpec
            [okExec (helloTask 301 []), threadClone]).stillStopped,
          [], false, 0⟩).code = 0
    ∧ (deliverSigints [false]
        ⟨(runEngine threadSpec
            [okExec (helloTask 301 []), threadClone]).stillStopped,
          [], false, 0⟩).exited = true := by decide

end GdbPounce
